import Mathlib

/-!
Shallow embedding of the teasergen video-pipeline core
(src/video_processor.py and src/utils.py).

External effects (network download attempts, OpenCV capture and writer
objects, the ffmpeg subclip helper) are modelled by explicit oracles passed
in as function arguments; the floating point times of the source are
modelled as rationals.  Each embedded definition cites the source lines it
is translated from.
-/

namespace TeaserGen

/-- Initial-segment test on character lists: true when the first list is an
initial segment of the second. -/
def leadsWith : List Char → List Char → Bool
  | [], _ => true
  | _ :: _, [] => false
  | a :: as, b :: bs => a == b && leadsWith as bs

/-- Contiguous-sublist test: true when the needle occurs contiguously inside
the second list. -/
def subListOf (needle : List Char) : List Char → Bool
  | [] => leadsWith needle []
  | c :: rest => leadsWith needle (c :: rest) || subListOf needle rest

/-- Python substring membership test (needle in haystack) on strings. -/
def strContains (haystack needle : String) : Bool :=
  subListOf needle.data haystack.data

/-- Outcome of one external download attempt: the client produced a file at
a path, or it raised an exception carrying a message. -/
inductive DlOutcome where
  | ok (path : String)
  | err (msg : String)
deriving DecidableEq

/-- Observable result of a Python call: the value it returned, or the
message of the exception it raised. -/
inductive PyResult (α : Type) where
  | returns (value : α)
  | raises (msg : String)
deriving DecidableEq

/-- Transient-error test of download_youtube_video, case sensitive, applied
to the raw message (video_processor.py line 140). -/
def isTransientPrimary (msg : String) : Bool :=
  strContains msg "WinError 32" || strContains msg "Permission denied"

/-- Python str.lower on the ASCII error messages of the source, modelled as
a character-wise lowering of the string. -/
def pyLower (s : String) : String :=
  String.mk (s.data.map Char.toLower)

/-- Transient-error test of download_youtube_video_fallback, applied to the
lower-cased message (video_processor.py line 90). -/
def isTransientFallbackMsg (m : String) : Bool :=
  strContains m "winerror 32" || strContains m "permission denied"

/-- An attempt outcome that the primary download loop classifies as
transient: an exception whose message matches the primary transient test. -/
def primaryTransientB : DlOutcome → Bool
  | .ok _ => false
  | .err msg => isTransientPrimary msg

/-- An attempt outcome that the fallback download loop classifies as
transient: an exception whose lower-cased message matches its test. -/
def fallbackTransientB : DlOutcome → Bool
  | .ok _ => false
  | .err msg => isTransientFallbackMsg (pyLower msg)

/-- Backoff delays slept by a retry loop that starts at attempt index a and
runs through k transient-failing attempts, sleeping base * 2 ^ attempt
seconds each time (video_processor.py lines 91 and 141). -/
def backoffs (base a k : Nat) : List Nat :=
  match k with
  | 0 => []
  | k + 1 => base * 2 ^ a :: backoffs base (a + 1) k

/-- Result of a run of download_youtube_video_fallback: the value returned
or exception raised, the number of attempts made, and the sleeps taken. -/
structure FallbackRun where
  result : PyResult String
  attempts : Nat
  sleeps : List Nat
deriving DecidableEq

/-- The attempt loop of download_youtube_video_fallback
(video_processor.py lines 65 to 104), driven by an oracle giving the
pytubefix outcome of each attempt.  Transient errors sleep and retry;
age-restriction, unavailability and sign-in messages raise specific
permanent errors; any other error raises immediately; an exhausted loop
raises the all-attempts-failed error. -/
def fallbackFrom (pytube : Nat → DlOutcome) (attempt : Nat) : Nat → FallbackRun
  | 0 =>
    ⟨.raises "All 5 attempts failed due to file access issues with pytubefix.",
      0, []⟩
  | remaining + 1 =>
    match pytube attempt with
    | .ok p => ⟨.returns p, 1, []⟩
    | .err msg =>
      let m := pyLower msg
      if isTransientFallbackMsg m then
        let rest := fallbackFrom pytube (attempt + 1) remaining
        ⟨rest.result, rest.attempts + 1, 5 * 2 ^ attempt :: rest.sleeps⟩
      else if strContains m "age restricted" then
        ⟨.raises "Age-restricted video. Cannot download.", 1, []⟩
      else if strContains m "unavailable" then
        ⟨.raises "Video is unavailable or private.", 1, []⟩
      else if strContains m "sign in" then
        ⟨.raises "Video requires sign-in to access.", 1, []⟩
      else
        ⟨.raises (String.append "YouTube download failed: " msg), 1, []⟩

/-- download_youtube_video_fallback (video_processor.py lines 48 to 104):
five pytubefix attempts with exponential backoff on transient errors.  The
oracle maps the url and the attempt index to that attempt outcome. -/
def download_youtube_video_fallback (url : String)
    (pytube : String → Nat → DlOutcome) : FallbackRun :=
  fallbackFrom (pytube url) 0 5

/-- Result of the primary yt-dlp loop of download_youtube_video: the path
returned when an attempt succeeded (none means control passes to the
fallback), the number of attempts made, and the sleeps taken. -/
structure PrimaryRun where
  outcome : Option String
  attempts : Nat
  sleeps : List Nat
deriving DecidableEq

/-- The yt-dlp attempt loop of download_youtube_video (video_processor.py
lines 123 to 147): transient errors sleep and retry; any other error, and
an exhausted loop, hand control to the pytubefix fallback. -/
def primaryFrom (ydl : Nat → DlOutcome) (attempt : Nat) : Nat → PrimaryRun
  | 0 => ⟨none, 0, []⟩
  | remaining + 1 =>
    match ydl attempt with
    | .ok p => ⟨some p, 1, []⟩
    | .err msg =>
      if isTransientPrimary msg then
        let rest := primaryFrom ydl (attempt + 1) remaining
        ⟨rest.outcome, rest.attempts + 1, 5 * 2 ^ attempt :: rest.sleeps⟩
      else
        ⟨none, 1, []⟩

/-- Observable result of a run of download_youtube_video: the value
returned or exception raised, whether the scratch directory was created,
and the attempt counts and sleep delays of both download strategies. -/
structure FetchRun where
  result : PyResult String
  madeTempDir : Bool
  primaryAttempts : Nat
  primarySleeps : List Nat
  usedFallback : Bool
  fallbackAttempts : Nat
  fallbackSleeps : List Nat
deriving DecidableEq

/-- download_youtube_video (video_processor.py lines 106 to 150).  The
scratch directory is created unconditionally before the first attempt
(line 118); the url is passed to the download clients and never inspected
by this function itself; after ten attempts, or on the first non-transient
error, control passes to download_youtube_video_fallback. -/
def download_youtube_video (url : String)
    (ydl pytube : String → Nat → DlOutcome) : FetchRun :=
  let pr := primaryFrom (ydl url) 0 10
  match pr.outcome with
  | some p => ⟨.returns p, true, pr.attempts, pr.sleeps, false, 0, []⟩
  | none =>
    let fr := download_youtube_video_fallback url pytube
    ⟨fr.result, true, pr.attempts, pr.sleeps, true, fr.attempts, fr.sleeps⟩

/-- Strip an exact literal from the front of a character list, returning
the remainder on success. -/
def dropLead (p : List Char) (s : List Char) : Option (List Char) :=
  match p, s with
  | [], rest => some rest
  | _ :: _, [] => none
  | a :: as, b :: bs => if a = b then dropLead as bs else none

/-- All remainders obtained by stripping one of the given literal
alternatives from the front of the input. -/
def altStrip (ps : List String) (s : List Char) : List (List Char) :=
  ps.filterMap (fun p => dropLead p.data s)

/-- All remainders of matches of the regex branch that consumes one or more
arbitrary non-newline characters followed by the literal question mark, v,
equals sign (the dot-plus branch of the path group of the YouTube url
regex). -/
def dotPlusVEq : List Char → List (List Char)
  | [] => []
  | c :: rest =>
    if c = Char.ofNat 10 then []
    else
      (match dropLead ("?v=".data) rest with
       | some r => [r]
       | none => []) ++ dotPlusVEq rest

/-- True when the input starts with eleven characters, none of which is an
ampersand, equals sign, percent sign or question mark (the final capture
group of the YouTube url regex). -/
def elevenOk (s : List Char) : Bool :=
  decide (11 ≤ s.length) &&
    (s.take 11).all fun c => !(c == '&' || c == '=' || c == '%' || c == '?')

/-- All remainders of matches of the optional path group of the YouTube url
regex: nothing, one of the literal path markers, or the dot-plus branch. -/
def ytPathMarks (s : List Char) : List (List Char) :=
  s :: (altStrip ["watch?v=", "embed/", "v/"] s ++ dotPlusVEq s)

/-- validate_youtube_url (utils.py lines 7 to 17): anchored match of the
YouTube url regex, computed by tracking every remainder reachable after
each regex component (optional scheme, optional www dot, required host and
top level domain with slash, optional path marker, then eleven characters
outside the excluded set).  Existential semantics over the alternatives
coincides with the backtracking semantics of re.match for a boolean
result. -/
def validate_youtube_url (url : String) : Bool :=
  let s0 := url.data
  let afterScheme := s0 :: altStrip ["http://", "https://"] s0
  let afterWww := afterScheme.flatMap fun s => s :: altStrip ["www."] s
  let afterHost :=
    afterWww.flatMap (altStrip ["youtube.", "youtu.", "youtube-nocookie."])
  let afterTld := afterHost.flatMap (altStrip ["com/", "be/"])
  let afterPath := afterTld.flatMap ytPathMarks
  afterPath.any elevenOk

/-- Environment of the segment extractor: what the OpenCV capture and the
ffmpeg subclip helper would do on each input.  The duration field records
what get_video_duration (video_processor.py lines 312 to 323) would report
for a path; process_video_file itself never consults it. -/
structure VideoEnv where
  opens : String → Bool
  readsFrame : String → Bool
  subclipRaises : String → ℚ → ℚ → String → Bool
  duration : String → ℚ

/-- Observable result of a run of process_video_file: the boolean it
returns, and the calls it made to ffmpeg_extract_subclip, each recorded as
input path, start time, end time, target path. -/
structure ExtractRun where
  ok : Bool
  subclipCalls : List (String × ℚ × ℚ × String)
deriving DecidableEq

/-- process_video_file (video_processor.py lines 16 to 46): checks that the
source opens and yields one decodable frame, then hands start_time and
end_time unchanged to ffmpeg_extract_subclip; every exception is caught,
printed, and turned into a False return. -/
def process_video_file (env : VideoEnv) (video_path output_path : String)
    (start_time end_time : ℚ) : ExtractRun :=
  if env.opens video_path = false then
    ⟨false, []⟩
  else if env.readsFrame video_path = false then
    ⟨false, []⟩
  else if env.subclipRaises video_path start_time end_time output_path then
    ⟨false, [(video_path, start_time, end_time, output_path)]⟩
  else
    ⟨true, [(video_path, start_time, end_time, output_path)]⟩

/-- One subtitle entry, the Python tuple (start, end, text). -/
structure SubEntry where
  start : ℚ
  stop : ℚ
  text : String
deriving DecidableEq

/-- Activity test of the per-frame subtitle loop (video_processor.py line
193): the chained comparison start less-or-equal time less-or-equal end. -/
def subActive (s : SubEntry) (t : ℚ) : Bool :=
  decide (s.start ≤ t) && decide (t ≤ s.stop)

/-- The per-frame subtitle pass of add_subtitles_to_video
(video_processor.py lines 192 to 217): walk the subtitle list in order and,
at the first entry whose window contains the frame time, draw it onto the
frame and break; later entries are not examined.  The frame type and the
drawing of one entry (the rectangle plus text of lines 209 to 216) are
parameters. -/
def renderSubtitleFrame {F : Type} (draw : SubEntry → F → F)
    (subs : List SubEntry) (t : ℚ) (frame : F) : F :=
  match subs with
  | [] => frame
  | s :: rest =>
    if subActive s t then draw s frame else renderSubtitleFrame draw rest t frame

/-- The activity test at a fixed time, as a predicate on entries. -/
def subActiveAt (t : ℚ) (s : SubEntry) : Bool :=
  subActive s t

/-- Contents of a file written by an OpenCV VideoWriter: the frames written
so far, and whether the writer was released cleanly (an unfinalized file
has no container index and is not playable). -/
structure VidFile (F : Type) where
  frames : List F
  finalized : Bool
deriving DecidableEq

/-- A filesystem fragment: the contents found at each path, none meaning no
file exists there. -/
def FileSys (F : Type) : Type := String → Option (VidFile F)

/-- Pointwise update of a filesystem at one path. -/
def setFile {F : Type} (fs : FileSys F) (p : String) (v : Option (VidFile F)) :
    FileSys F :=
  fun q => if q = p then v else fs q

/-- Environment of the frame-processing operations: whether the OpenCV
capture of a path opens, the decodable frames of the file at a path, the
frame rate reported for a path, and which loop iterations hit a
frame-processing exception inside the while loop. -/
structure CompositeEnv (F : Type) where
  opens : String → Bool
  frames : String → List F
  fps : String → ℚ
  procRaises : Nat → Bool

/-- The frame loop of add_subtitles_to_video (video_processor.py lines 184
to 221) over the remaining frames, starting at the given frame counter:
returns the frames written to the output before completion or before the
first frame-processing exception, and whether the loop completed.  The
frame time is frame_count divided by fps (line 189). -/
def subsLoop {F : Type} (draw : SubEntry → F → F) (subs : List SubEntry)
    (fps : ℚ) (procRaises : Nat → Bool) : List F → Nat → List F × Bool
  | [], _ => ([], true)
  | f :: rest, idx =>
    if procRaises idx then ([], false)
    else
      let fr := renderSubtitleFrame draw subs ((idx : ℚ) / fps) f
      let pr := subsLoop draw subs fps procRaises rest (idx + 1)
      (fr :: pr.1, pr.2)

/-- The frames an exception-free run of the subtitle loop would write. -/
def subsAll {F : Type} (draw : SubEntry → F → F) (subs : List SubEntry)
    (fps : ℚ) : List F → Nat → List F
  | [], _ => []
  | f :: rest, idx =>
    renderSubtitleFrame draw subs ((idx : ℚ) / fps) f ::
      subsAll draw subs fps rest (idx + 1)

/-- Observable result of a run of add_subtitles_to_video: the path
returned, the final filesystem, whether a VideoWriter was created on the
output path, and whether the frame loop completed without an exception. -/
structure SubsRun (F : Type) where
  retPath : String
  fsOut : FileSys F
  writerCreated : Bool
  completed : Bool

/-- add_subtitles_to_video (video_processor.py lines 152 to 233).  If the
capture does not open, or one of the first ten corruption-check reads
fails, the function warns and returns the input path with no writer
created; those ten check reads advance the stream, so the main loop starts
at the eleventh decodable frame with frame_count zero.  Creating the writer
truncates the output path.  On completion the writer is released
(finalizing the file) and the output path is returned; a frame-processing
exception is caught and the input path returned, leaving the partial,
unfinalized writer output in place. -/
def add_subtitles_to_video {F : Type} (env : CompositeEnv F)
    (draw : SubEntry → F → F) (fs : FileSys F) (video_path : String)
    (subtitles : List SubEntry) (output_path : String) : SubsRun F :=
  if env.opens video_path = false then
    ⟨video_path, fs, false, false⟩
  else if (env.frames video_path).length < 10 then
    ⟨video_path, fs, false, false⟩
  else
    let rest := (env.frames video_path).drop 10
    let pr := subsLoop draw subtitles (env.fps video_path) env.procRaises rest 0
    if pr.2 then
      ⟨output_path, setFile fs output_path (some ⟨pr.1, true⟩), true, true⟩
    else
      ⟨video_path, setFile fs output_path (some ⟨pr.1, false⟩), true, false⟩

/-- The frame loop of add_branding (video_processor.py lines 258 to 300):
each frame is branded by the per-frame transformation and written; the
loop stops at the first frame-processing exception.  Returns the frames
written and whether the loop completed. -/
def brandLoop {F : Type} (bframe : F → F) (procRaises : Nat → Bool) :
    List F → Nat → List F × Bool
  | [], _ => ([], true)
  | f :: rest, idx =>
    if procRaises idx then ([], false)
    else
      let pr := brandLoop bframe procRaises rest (idx + 1)
      (bframe f :: pr.1, pr.2)

/-- The frames an exception-free run of the branding loop would write. -/
def brandAll {F : Type} (bframe : F → F) : List F → List F :=
  List.map bframe

/-- Observable result of a run of add_branding: the path returned, the
final filesystem, the path the VideoWriter was created on, and whether the
frame loop completed without an exception. -/
structure BrandRun (F : Type) where
  retPath : String
  fsOut : FileSys F
  writerTarget : String
  completed : Bool

/-- add_branding (video_processor.py lines 235 to 310).  When output_path
is omitted (None) the input path itself becomes the write target (lines
239 to 240).  There is no open or corruption check: the writer is created
on the output path (truncating it), every decodable frame is branded by
the per-frame transformation determined by logo_path and tagline, and on
completion the output path is returned.  A frame-processing exception is
caught and the input path returned, leaving the partial, unfinalized
writer output in place. -/
def add_branding {F : Type} (env : CompositeEnv F)
    (bframe : Option String → Option String → F → F) (fs : FileSys F)
    (video_path : String) (logo_path tagline outArg : Option String) :
    BrandRun F :=
  let output_path := outArg.getD video_path
  let pr := brandLoop (bframe logo_path tagline) env.procRaises
    (env.frames video_path) 0
  if pr.2 then
    ⟨output_path, setFile fs output_path (some ⟨pr.1, true⟩), output_path, true⟩
  else
    ⟨video_path, setFile fs output_path (some ⟨pr.1, false⟩), output_path, false⟩

/-- A raster image: height, width, channel count, and the value of each
pixel as a rational (the uint8 values of the source, kept exact through the
float blend arithmetic of lines 269 to 275). -/
structure Img where
  h : Nat
  w : Nat
  ch : Nat
  px : Nat → Nat → Nat → ℚ

/-- cv2.resize to an explicit width and height (video_processor.py line
256): the result has the requested footprint and the channel count of the
source; the interpolated pixel values are supplied by a sampling oracle,
since the interpolation kernel is internal to OpenCV. -/
def cvResize (sample : Nat → Nat → Nat → ℚ) (img : Img) (W H : Nat) : Img :=
  ⟨H, W, img.ch, sample⟩

/-- Numpy slice assignment on the region of rows y0 to y0 + hh and columns
x0 to x0 + ww, on the channels selected by the filter: pixels inside the
region take the new values, every other pixel keeps its old value.  The
source only uses this with regions inside the frame (a region reaching
past the frame would make the numpy assignment raise on shape mismatch),
so no clipping is modelled. -/
def assignRegion (img : Img) (y0 x0 hh ww : Nat)
    (newPx : Nat → Nat → Nat → ℚ) (chSel : Nat → Bool) : Img :=
  { img with
    px := fun y x c =>
      if y0 ≤ y ∧ y < y0 + hh ∧ x0 ≤ x ∧ x < x0 + ww ∧ chSel c = true then
        newPx y x c
      else img.px y x c }

/-- One iteration of the per-channel alpha-blend loop of add_branding
(video_processor.py lines 270 to 275) at the fixed offsets y 10, x 10:
channel c0 of the logo region becomes alpha times the logo value plus one
minus alpha times the old frame value, with alpha the fourth logo channel
scaled by 255. -/
def blendChannel (lg : Img) (c0 : Nat) (img : Img) : Img :=
  assignRegion img 10 10 lg.h lg.w
    (fun y x c =>
      lg.px (y - 10) (x - 10) 3 / 255 * lg.px (y - 10) (x - 10) c +
        (1 - lg.px (y - 10) (x - 10) 3 / 255) * img.px y x c)
    (fun c => c == c0)

/-- The logo step of the branding loop body (video_processor.py lines 264
to 278): with no logo the frame is untouched; a four-channel logo is
alpha-blended channel by channel (the Python for loop over channels zero,
one, two); any other logo is blitted opaquely over the whole region on all
channels. -/
def applyLogo (logoR : Option Img) (frame : Img) : Img :=
  match logoR with
  | none => frame
  | some lg =>
    if lg.ch = 4 then
      List.foldl (fun acc c0 => blendChannel lg c0 acc) frame [0, 1, 2]
    else
      assignRegion frame 10 10 lg.h lg.w
        (fun y x c => lg.px (y - 10) (x - 10) c) (fun _ => true)

/-- The branding loop body (video_processor.py lines 263 to 298): the logo
step followed by the tagline step; the tagline rasterization (text extent,
background rectangle and glyphs of lines 281 to 298) is supplied as an
oracle, applied only when a tagline is present. -/
def brandFrameImg (tagDraw : String → Img → Img) (logoR : Option Img)
    (tagline : Option String) (frame : Img) : Img :=
  let f1 := applyLogo logoR frame
  match tagline with
  | none => f1
  | some tg => tagDraw tg f1

/-- The first list is an initial segment of the second. -/
def frontOf {F : Type} (u v : List F) : Prop :=
  ∃ rest, u ++ rest = v

/-- Download oracle whose every attempt raises a transient file-lock
error. -/
def ydlTransient : String → Nat → DlOutcome :=
  fun _ _ => .err "[WinError 32] The process cannot access the file"

/-- Download oracle whose every attempt succeeds. -/
def ydlOk : String → Nat → DlOutcome :=
  fun _ _ => .ok "/tmp/teaser_generator/clip.webm"

/-- Fallback oracle whose first attempt succeeds. -/
def pytubeFirstOk : String → Nat → DlOutcome :=
  fun _ n => if n = 0 then .ok "/tmp/teaser_generator/clip.mp4" else .err "boom"

/-- Fallback oracle whose every attempt raises a transient error. -/
def pytubeTransient : String → Nat → DlOutcome :=
  fun _ _ => .err "[WinError 32] The process cannot access the file"

/-- Extractor environment where every source opens, decodes, and subclips
cleanly, and every source reports a duration of four seconds. -/
def envReady : VideoEnv :=
  ⟨fun _ => true, fun _ => true, fun _ _ _ _ => false, fun _ => 4⟩

/-- Extractor environment where no source can be opened. -/
def envNoOpen : VideoEnv :=
  ⟨fun _ => false, fun _ => true, fun _ _ _ _ => false, fun _ => 4⟩

/-- Two overlapping subtitle entries: both windows contain time one. -/
def demoSubs : List SubEntry := [⟨0, 2, "first"⟩, ⟨1, 3, "second"⟩]

/-- A drawing function over list-of-string frames that records which entry
was drawn. -/
def demoDraw : SubEntry → List String → List String :=
  fun s acc => s.text :: acc

/-- Compositing environment over numeric frame tokens: every path opens
onto twelve frames at thirty frames per second, and the frame loop hits an
exception at its second iteration (index one). -/
def envFrames : CompositeEnv Nat :=
  ⟨fun _ => true, fun _ => [0, 1, 2, 3, 4, 5, 6, 7, 8, 9, 10, 11],
    fun _ => 30, fun i => i = 1⟩

/-- A filesystem holding one finalized twelve-frame video at v.mp4. -/
def fsDemo : FileSys Nat :=
  fun p =>
    if p = "v.mp4" then some ⟨[0, 1, 2, 3, 4, 5, 6, 7, 8, 9, 10, 11], true⟩
    else none

/-- A subtitle drawing function on numeric frame tokens. -/
def drawNat : SubEntry → Nat → Nat := fun _ n => n + 50

/-- A branding transformation on numeric frame tokens. -/
def bframeNat : Option String → Option String → Nat → Nat :=
  fun _ _ n => n + 100

/-- A four-channel logo image before resizing. -/
def demoLogo4 : Img := ⟨7, 9, 4, fun _ _ _ => 128⟩

/-- A resampling oracle returning a constant pixel value. -/
def demoSample : Nat → Nat → Nat → ℚ := fun _ _ _ => 64

/-- A three-channel frame large enough to hold the logo region. -/
def demoFrame : Img := ⟨120, 130, 3, fun _ _ _ => 10⟩

/-- A tagline rasterization oracle that leaves the frame untouched. -/
def demoTagDraw : String → Img → Img := fun _ f => f

/-- If every one of the next k yt-dlp attempts fails transiently, the
primary loop makes exactly k attempts, sleeps the exponential backoff
delays, and hands control to the fallback. -/
theorem primaryFrom_transient (ydl : Nat → DlOutcome) :
    ∀ k a, (∀ n, n < k → primaryTransientB (ydl (a + n)) = true) →
      primaryFrom ydl a k = ⟨none, k, backoffs 5 a k⟩ := by
  intro k
  induction k with
  | zero => intro a _; rfl
  | succ k ih =>
    intro a h
    have h0 := h 0 (Nat.succ_pos k)
    rw [Nat.add_zero] at h0
    cases hy : ydl a with
    | ok p => rw [hy] at h0; simp [primaryTransientB] at h0
    | err msg =>
      rw [hy] at h0
      have ht : isTransientPrimary msg = true := h0
      have hrest : primaryFrom ydl (a + 1) k = ⟨none, k, backoffs 5 (a + 1) k⟩ := by
        apply ih
        intro n hn
        have := h (n + 1) (Nat.succ_lt_succ hn)
        rwa [show a + (n + 1) = a + 1 + n by omega] at this
      simp [primaryFrom, hy, ht, hrest, backoffs]

/-- If every one of the next k pytubefix attempts fails transiently, the
fallback loop makes exactly k attempts, sleeps the exponential backoff
delays, and then raises the all-attempts-failed error. -/
theorem fallbackFrom_transient (pytube : Nat → DlOutcome) :
    ∀ k a, (∀ n, n < k → fallbackTransientB (pytube (a + n)) = true) →
      fallbackFrom pytube a k =
        ⟨.raises "All 5 attempts failed due to file access issues with pytubefix.",
          k, backoffs 5 a k⟩ := by
  intro k
  induction k with
  | zero => intro a _; rfl
  | succ k ih =>
    intro a h
    have h0 := h 0 (Nat.succ_pos k)
    rw [Nat.add_zero] at h0
    cases hy : pytube a with
    | ok p => rw [hy] at h0; simp [fallbackTransientB] at h0
    | err msg =>
      rw [hy] at h0
      have ht : isTransientFallbackMsg (pyLower msg) = true := h0
      have hrest := ih (a + 1) (by
        intro n hn
        have := h (n + 1) (Nat.succ_lt_succ hn)
        rwa [show a + (n + 1) = a + 1 + n by omega] at this)
      simp [fallbackFrom, hy, ht, hrest, backoffs]

/-- Every run of the primary loop with positive attempt budget makes at
least one download attempt. -/
theorem primaryFrom_attempts_pos (ydl : Nat → DlOutcome) (a k : Nat)
    (hk : 0 < k) : 1 ≤ (primaryFrom ydl a k).attempts := by
  cases k with
  | zero => omega
  | succ k =>
    cases hy : ydl a with
    | ok p => simp [primaryFrom, hy]
    | err msg =>
      by_cases ht : isTransientPrimary msg = true
      · simp [primaryFrom, hy, ht]
      · simp [primaryFrom, hy, ht]

/-- C1 (amended): if every yt-dlp attempt fails with an error classified as
transient, download_youtube_video makes exactly ten primary attempts with
delays doubling from five seconds, then falls back to pytubefix instead of
raising; it raises (the all-attempts-failed error, after five further
fallback attempts) only when every fallback attempt is also transient, so
it never loops indefinitely. -/
theorem fetch_ten_transient_attempts_then_fallback (url : String)
    (ydl pytube : String → Nat → DlOutcome)
    (hp : ∀ n, n < 10 → primaryTransientB (ydl url n) = true) :
    (download_youtube_video url ydl pytube).primaryAttempts = 10 ∧
    (download_youtube_video url ydl pytube).primarySleeps =
      [5, 10, 20, 40, 80, 160, 320, 640, 1280, 2560] ∧
    (download_youtube_video url ydl pytube).usedFallback = true ∧
    ((∀ n, n < 5 → fallbackTransientB (pytube url n) = true) →
      (download_youtube_video url ydl pytube).result =
        .raises "All 5 attempts failed due to file access issues with pytubefix." ∧
      (download_youtube_video url ydl pytube).fallbackAttempts = 5) := by
  have hpr : primaryFrom (ydl url) 0 10 = ⟨none, 10, backoffs 5 0 10⟩ := by
    apply primaryFrom_transient
    intro n hn
    rw [Nat.zero_add]
    exact hp n hn
  have hback : backoffs 5 0 10 = [5, 10, 20, 40, 80, 160, 320, 640, 1280, 2560] := by
    decide
  refine ⟨?_, ?_, ?_, ?_⟩
  · simp [download_youtube_video, hpr]
  · simp [download_youtube_video, hpr, hback]
  · simp [download_youtube_video, hpr]
  · intro hf
    have hfr : fallbackFrom (pytube url) 0 5 =
        ⟨.raises "All 5 attempts failed due to file access issues with pytubefix.",
          5, backoffs 5 0 5⟩ := by
      apply fallbackFrom_transient
      intro n hn
      rw [Nat.zero_add]
      exact hf n hn
    constructor
    · simp [download_youtube_video, hpr, download_youtube_video_fallback, hfr]
    · simp [download_youtube_video, hpr, download_youtube_video_fallback, hfr]

/-- Witness for the C1 theorem at concrete always-transient oracles. -/
theorem fetch_ten_transient_attempts_then_fallback_witness :
    primaryTransientB (ydlTransient "u" 0) = true ∧
    fallbackTransientB (pytubeTransient "u" 0) = true ∧
    (download_youtube_video "u" ydlTransient pytubeTransient).primaryAttempts = 10 ∧
    (download_youtube_video "u" ydlTransient pytubeTransient).primarySleeps =
      [5, 10, 20, 40, 80, 160, 320, 640, 1280, 2560] ∧
    (download_youtube_video "u" ydlTransient pytubeTransient).usedFallback = true ∧
    (download_youtube_video "u" ydlTransient pytubeTransient).result =
      .raises "All 5 attempts failed due to file access issues with pytubefix." ∧
    (download_youtube_video "u" ydlTransient pytubeTransient).fallbackAttempts = 5 := by
  have hp : ∀ n, n < 10 → primaryTransientB (ydlTransient "u" n) = true := by decide
  have hf : ∀ n, n < 5 → fallbackTransientB (pytubeTransient "u" n) = true := by decide
  have h := fetch_ten_transient_attempts_then_fallback "u" ydlTransient pytubeTransient hp
  exact ⟨hp 0 (by norm_num), hf 0 (by norm_num), h.1, h.2.1, h.2.2.1,
    (h.2.2.2 hf).1, (h.2.2.2 hf).2⟩

/-- C1 counterexample: every primary attempt fails with a transient
file-lock error, yet fetch does not stop and raise after the tenth failed
attempt: it falls back to pytubefix and returns the fallback download. -/
theorem fetch_transient_exhaustion_does_not_raise :
    primaryTransientB (ydlTransient "u" 0) = true ∧
    (download_youtube_video "u" ydlTransient pytubeFirstOk).primaryAttempts = 10 ∧
    (download_youtube_video "u" ydlTransient pytubeFirstOk).result =
      .returns "/tmp/teaser_generator/clip.mp4" := by
  refine ⟨by decide, by decide, by decide⟩

/-- C2 (amended): the segment extractor performs no start/end validation.
Whenever the source passes the open and first-frame checks, start and end
are forwarded unchanged to ffmpeg_extract_subclip, whether or not start is
below end and whether or not end exceeds the source duration; no clamping
and no rejection happens inside process_video_file. -/
theorem extract_forwards_times_unchanged (env : VideoEnv)
    (vin out : String) (s e : ℚ) (h1 : env.opens vin = true)
    (h2 : env.readsFrame vin = true) :
    (process_video_file env vin out s e).subclipCalls = [(vin, s, e, out)] := by
  unfold process_video_file
  rw [h1, h2]
  simp only [Bool.true_eq_false, if_false]
  split <;> rfl

/-- Witness for the C2 theorem: a call with start five and end three, above
the source duration four, is still forwarded unchanged. -/
theorem extract_forwards_times_unchanged_witness :
    envReady.opens "in.mp4" = true ∧ envReady.readsFrame "in.mp4" = true ∧
    (process_video_file envReady "in.mp4" "seg.mp4" 5 3).subclipCalls =
      [("in.mp4", 5, 3, "seg.mp4")] := by
  exact ⟨by decide, by decide,
    extract_forwards_times_unchanged envReady "in.mp4" "seg.mp4" 5 3
      (by decide) (by decide)⟩

/-- C2 counterexample: on a readable source of duration four, a call with
start five and end three is not rejected (the extractor reports success and
invokes the subclip step), and a call with end nine is not clamped to the
duration four. -/
theorem extract_no_reject_no_clamp :
    (3 : ℚ) < 5 ∧
    (process_video_file envReady "in.mp4" "seg.mp4" 5 3).ok = true ∧
    (process_video_file envReady "in.mp4" "seg.mp4" 5 3).subclipCalls =
      [("in.mp4", 5, 3, "seg.mp4")] ∧
    envReady.duration "in.mp4" = 4 ∧ (4 : ℚ) < 9 ∧
    (process_video_file envReady "in.mp4" "seg.mp4" 0 9).subclipCalls =
      [("in.mp4", 0, 9, "seg.mp4")] := by
  refine ⟨by norm_num, by decide, by decide, by decide, by norm_num, by decide⟩

/-- The per-frame subtitle pass renders exactly the first list entry whose
window contains the frame time, and nothing else. -/
theorem renderSubtitleFrame_eq_find {F : Type} (draw : SubEntry → F → F)
    (subs : List SubEntry) (t : ℚ) (frame : F) :
    renderSubtitleFrame draw subs t frame =
      (match subs.find? (subActiveAt t) with
       | some s => draw s frame
       | none => frame) := by
  induction subs with
  | nil => rfl
  | cons s rest ih =>
    by_cases h : subActive s t
    · simp [renderSubtitleFrame, List.find?, subActiveAt, h]
    · simp only [Bool.not_eq_true] at h
      simp [renderSubtitleFrame, List.find?, subActiveAt, h, ih]

/-- C3: when two or more subtitle entries are active at the frame time, the
frame is rendered by drawing exactly the first active entry in list order
and no other (the rendered frame equals the draw of the first match found,
for every drawing function, so no other entry can influence it). -/
theorem subtitle_first_match_only {F : Type} (draw : SubEntry → F → F)
    (subs : List SubEntry) (t : ℚ) (frame : F)
    (h : 2 ≤ (subs.filter (subActiveAt t)).length) :
    renderSubtitleFrame draw subs t frame =
      (match subs.find? (subActiveAt t) with
       | some s => draw s frame
       | none => frame) :=
  renderSubtitleFrame_eq_find draw subs t frame

/-- Witness for the C3 theorem: two overlapping entries at time one; the
rendered frame records only the first entry. -/
theorem subtitle_first_match_only_witness :
    2 ≤ (demoSubs.filter (subActiveAt 1)).length ∧
    renderSubtitleFrame demoDraw demoSubs 1 ["base"] =
      (match demoSubs.find? (subActiveAt 1) with
       | some s => demoDraw s ["base"]
       | none => ["base"]) ∧
    renderSubtitleFrame demoDraw demoSubs 1 ["base"] = ["first", "base"] := by
  refine ⟨by decide, subtitle_first_match_only demoDraw demoSubs 1 ["base"] (by decide),
    by decide⟩

/-- C4 (amended): on any frame-processing exception mid-stream, both
compositors catch the exception and return the input video path (they
never raise and never return the output path); the file at the input path
is unmodified whenever the output path differs from the input path.  When
the write target coincides with the input path the input file itself holds
the partial writer output (see the counterexample). -/
theorem compositors_catch_and_return_input {F : Type} (env : CompositeEnv F)
    (draw : SubEntry → F → F) (bframe : Option String → Option String → F → F)
    (fs : FileSys F) (vp : String) (subs : List SubEntry) (out : String)
    (lp tg outb : Option String) :
    ((add_subtitles_to_video env draw fs vp subs out).completed = false →
      (add_subtitles_to_video env draw fs vp subs out).retPath = vp ∧
      (out ≠ vp →
        (add_subtitles_to_video env draw fs vp subs out).fsOut vp = fs vp)) ∧
    ((add_branding env bframe fs vp lp tg outb).completed = false →
      (add_branding env bframe fs vp lp tg outb).retPath = vp ∧
      (outb.getD vp ≠ vp →
        (add_branding env bframe fs vp lp tg outb).fsOut vp = fs vp)) := by
  constructor
  · intro hc
    by_cases h1 : env.opens vp = false
    · constructor
      · simp [add_subtitles_to_video, h1]
      · intro _; simp [add_subtitles_to_video, h1]
    · by_cases h2 : (env.frames vp).length < 10
      · constructor
        · simp [add_subtitles_to_video, h1, h2]
        · intro _; simp [add_subtitles_to_video, h1, h2]
      · by_cases hp : (subsLoop draw subs (env.fps vp) env.procRaises
            ((env.frames vp).drop 10) 0).2 = true
        · exfalso
          have : (add_subtitles_to_video env draw fs vp subs out).completed = true := by
            simp [add_subtitles_to_video, h1, h2, hp]
          rw [hc] at this
          exact Bool.false_ne_true this
        · rw [Bool.not_eq_true] at hp
          constructor
          · simp [add_subtitles_to_video, h1, h2, hp]
          · intro hne
            have hv : ¬(vp = out) := fun hh => hne hh.symm
            simp [add_subtitles_to_video, h1, h2, hp, setFile, hv]
  · intro hc
    by_cases hp : (brandLoop (bframe lp tg) env.procRaises (env.frames vp) 0).2 = true
    · exfalso
      have : (add_branding env bframe fs vp lp tg outb).completed = true := by
        simp [add_branding, hp]
      rw [hc] at this
      exact Bool.false_ne_true this
    · rw [Bool.not_eq_true] at hp
      constructor
      · simp [add_branding, hp]
      · intro hne
        have hv : ¬(vp = outb.getD vp) := fun hh => hne hh.symm
        simp [add_branding, hp, setFile, hv]

/-- Witness for the C4 theorem: a concrete exception at the second loop
iteration; both compositors return the input path v.mp4 and leave its
content untouched, the write targets being distinct paths. -/
theorem compositors_catch_and_return_input_witness :
    (add_subtitles_to_video envFrames drawNat fsDemo "v.mp4" [] "out.mp4").completed
      = false ∧
    (add_subtitles_to_video envFrames drawNat fsDemo "v.mp4" [] "out.mp4").retPath
      = "v.mp4" ∧
    (add_subtitles_to_video envFrames drawNat fsDemo "v.mp4" [] "out.mp4").fsOut
      "v.mp4" = fsDemo "v.mp4" ∧
    (add_branding envFrames bframeNat fsDemo "v.mp4" none none
      (some "b.mp4")).completed = false ∧
    (add_branding envFrames bframeNat fsDemo "v.mp4" none none
      (some "b.mp4")).retPath = "v.mp4" ∧
    (add_branding envFrames bframeNat fsDemo "v.mp4" none none
      (some "b.mp4")).fsOut "v.mp4" = fsDemo "v.mp4" := by
  have h := compositors_catch_and_return_input envFrames drawNat bframeNat fsDemo
    "v.mp4" [] "out.mp4" none none (some "b.mp4")
  have hcs : (add_subtitles_to_video envFrames drawNat fsDemo "v.mp4" []
      "out.mp4").completed = false := by decide
  have hcb : (add_branding envFrames bframeNat fsDemo "v.mp4" none none
      (some "b.mp4")).completed = false := by decide
  exact ⟨hcs, (h.1 hcs).1, (h.1 hcs).2 (by decide), hcb, (h.2 hcb).1,
    (h.2 hcb).2 (by decide)⟩

/-- C4 counterexample: branding invoked with its default output (None) on a
twelve-frame input; a frame-processing exception at the second iteration is
caught and the input path is returned, but the file at that returned path
is no longer the original input: it now holds one branded frame of an
unfinalized writer output. -/
theorem branding_exception_overwrites_aliased_input :
    (add_branding envFrames bframeNat fsDemo "v.mp4" none none none).completed
      = false ∧
    (add_branding envFrames bframeNat fsDemo "v.mp4" none none none).retPath
      = "v.mp4" ∧
    fsDemo "v.mp4" = some ⟨[0, 1, 2, 3, 4, 5, 6, 7, 8, 9, 10, 11], true⟩ ∧
    (add_branding envFrames bframeNat fsDemo "v.mp4" none none none).fsOut
      "v.mp4" = some ⟨[100], false⟩ ∧
    (add_branding envFrames bframeNat fsDemo "v.mp4" none none none).fsOut
      "v.mp4" ≠ fsDemo "v.mp4" := by
  refine ⟨by decide, by decide, by decide, by decide, by decide⟩

/-- C5 (amended): download_youtube_video performs no url validation at all:
for every url, including those rejected by validate_youtube_url, it creates
the scratch directory and makes at least one download attempt; url-shape
checking exists only as the separate utility validate_youtube_url, applied
by the presentation layer before fetch is called. -/
theorem fetch_ignores_url_shape (url : String)
    (ydl pytube : String → Nat → DlOutcome)
    (h : validate_youtube_url url = false) :
    (download_youtube_video url ydl pytube).madeTempDir = true ∧
    1 ≤ (download_youtube_video url ydl pytube).primaryAttempts := by
  have hpos := primaryFrom_attempts_pos (ydl url) 0 10 (by norm_num)
  cases hpo : (primaryFrom (ydl url) 0 10).outcome with
  | none =>
    constructor
    · simp [download_youtube_video, hpo]
    · simpa [download_youtube_video, hpo] using hpos
  | some p =>
    constructor
    · simp [download_youtube_video, hpo]
    · simpa [download_youtube_video, hpo] using hpos

/-- Witness for the C5 theorem at a concrete malformed url. -/
theorem fetch_ignores_url_shape_witness :
    validate_youtube_url "notaurl" = false ∧
    (download_youtube_video "notaurl" ydlOk pytubeFirstOk).madeTempDir = true ∧
    1 ≤ (download_youtube_video "notaurl" ydlOk pytubeFirstOk).primaryAttempts := by
  have h := fetch_ignores_url_shape "notaurl" ydlOk pytubeFirstOk (by decide)
  exact ⟨by decide, h.1, h.2⟩

/-- C5 counterexample: on the malformed url notaurl (rejected by
validate_youtube_url), fetch does not fail before attempting and does not
leave the filesystem untouched: it creates the scratch directory, makes a
download attempt, and even returns a downloaded file. -/
theorem fetch_downloads_malformed_url :
    validate_youtube_url "notaurl" = false ∧
    (download_youtube_video "notaurl" ydlOk pytubeFirstOk).madeTempDir = true ∧
    1 ≤ (download_youtube_video "notaurl" ydlOk pytubeFirstOk).primaryAttempts ∧
    (download_youtube_video "notaurl" ydlOk pytubeFirstOk).result =
      .returns "/tmp/teaser_generator/clip.webm" := by
  refine ⟨by decide, by decide, by decide, by decide⟩

/-- C6: a source that does not open, or whose first frame cannot be
decoded, makes process_video_file fail (its caught-exception path prints
the error and returns False) without ever invoking the ffmpeg subclip
step. -/
theorem extract_guard_blocks_subclip (env : VideoEnv) (vin out : String)
    (s e : ℚ) (h : env.opens vin = false ∨ env.readsFrame vin = false) :
    (process_video_file env vin out s e).ok = false ∧
    (process_video_file env vin out s e).subclipCalls = [] := by
  rcases h with h | h
  · constructor <;> simp [process_video_file, h]
  · cases h1 : env.opens vin with
    | false => constructor <;> simp [process_video_file, h1]
    | true => constructor <;> simp [process_video_file, h1, h]

/-- Witness for the C6 theorem at a concrete non-opening source. -/
theorem extract_guard_blocks_subclip_witness :
    envNoOpen.opens "bad.mp4" = false ∧
    (process_video_file envNoOpen "bad.mp4" "seg.mp4" 0 5).ok = false ∧
    (process_video_file envNoOpen "bad.mp4" "seg.mp4" 0 5).subclipCalls = [] := by
  have h := extract_guard_blocks_subclip envNoOpen "bad.mp4" "seg.mp4" 0 5
    (Or.inl (by decide))
  exact ⟨by decide, h.1, h.2⟩

/-- The frames written by an interrupted subtitle loop are an initial
segment of the frames a complete run would write. -/
theorem subsLoop_written_front {F : Type} (draw : SubEntry → F → F)
    (subs : List SubEntry) (fps : ℚ) (procRaises : Nat → Bool) :
    ∀ (l : List F) (idx : Nat),
      frontOf (subsLoop draw subs fps procRaises l idx).1
        (subsAll draw subs fps l idx) := by
  intro l
  induction l with
  | nil => intro idx; exact ⟨[], rfl⟩
  | cons f rest ih =>
    intro idx
    by_cases h : procRaises idx = true
    · exact ⟨subsAll draw subs fps (f :: rest) idx, by simp [subsLoop, h]⟩
    · rw [Bool.not_eq_true] at h
      obtain ⟨r, hr⟩ := ih (idx + 1)
      exact ⟨r, by simp [subsLoop, h, subsAll, hr]⟩

/-- The frames written by an interrupted branding loop are an initial
segment of the frames a complete run would write. -/
theorem brandLoop_written_front {F : Type} (bframe : F → F)
    (procRaises : Nat → Bool) :
    ∀ (l : List F) (idx : Nat),
      frontOf (brandLoop bframe procRaises l idx).1 (brandAll bframe l) := by
  intro l
  induction l with
  | nil => intro idx; exact ⟨[], rfl⟩
  | cons f rest ih =>
    intro idx
    by_cases h : procRaises idx = true
    · exact ⟨brandAll bframe (f :: rest), by simp [brandLoop, h]⟩
    · rw [Bool.not_eq_true] at h
      obtain ⟨r, hr⟩ := ih (idx + 1)
      exact ⟨r, by simp [brandLoop, h, brandAll, hr]⟩

/-- C7 (amended): a compositing run interrupted by a frame-processing
exception does not leave nothing or the prior artifact at the intended
output path: once the writer has been created, the output path holds the
unfinalized partial file consisting of exactly the frames written before
the exception, an initial segment of the frames a complete run would have
written; the file at the input path is preserved whenever the output path
differs from it (the dedicated counterexample shows the partial file
replacing the prior artifact). -/
theorem failed_compositing_leaves_unfinalized_file {F : Type}
    (env : CompositeEnv F) (draw : SubEntry → F → F)
    (bframe : Option String → Option String → F → F) (fs : FileSys F)
    (vp : String) (subs : List SubEntry) (out : String)
    (lp tg outb : Option String) :
    ((add_subtitles_to_video env draw fs vp subs out).completed = false →
      (add_subtitles_to_video env draw fs vp subs out).writerCreated = true →
      (add_subtitles_to_video env draw fs vp subs out).fsOut out =
        some ⟨(subsLoop draw subs (env.fps vp) env.procRaises
          ((env.frames vp).drop 10) 0).1, false⟩ ∧
      frontOf (subsLoop draw subs (env.fps vp) env.procRaises
          ((env.frames vp).drop 10) 0).1
        (subsAll draw subs (env.fps vp) ((env.frames vp).drop 10) 0)) ∧
    ((add_branding env bframe fs vp lp tg outb).completed = false →
      (add_branding env bframe fs vp lp tg outb).fsOut (outb.getD vp) =
        some ⟨(brandLoop (bframe lp tg) env.procRaises (env.frames vp) 0).1,
          false⟩ ∧
      frontOf (brandLoop (bframe lp tg) env.procRaises (env.frames vp) 0).1
        (brandAll (bframe lp tg) (env.frames vp))) := by
  constructor
  · intro hc hw
    by_cases h1 : env.opens vp = false
    · exfalso
      have : (add_subtitles_to_video env draw fs vp subs out).writerCreated
          = false := by simp [add_subtitles_to_video, h1]
      rw [hw] at this
      exact Bool.noConfusion this
    · by_cases h2 : (env.frames vp).length < 10
      · exfalso
        have : (add_subtitles_to_video env draw fs vp subs out).writerCreated
            = false := by simp [add_subtitles_to_video, h1, h2]
        rw [hw] at this
        exact Bool.noConfusion this
      · by_cases hp : (subsLoop draw subs (env.fps vp) env.procRaises
            ((env.frames vp).drop 10) 0).2 = true
        · exfalso
          have : (add_subtitles_to_video env draw fs vp subs out).completed
              = true := by simp [add_subtitles_to_video, h1, h2, hp]
          rw [hc] at this
          exact Bool.false_ne_true this
        · rw [Bool.not_eq_true] at hp
          constructor
          · simp [add_subtitles_to_video, h1, h2, hp, setFile]
          · exact subsLoop_written_front draw subs (env.fps vp) env.procRaises
              ((env.frames vp).drop 10) 0
  · intro hc
    by_cases hp : (brandLoop (bframe lp tg) env.procRaises (env.frames vp) 0).2
        = true
    · exfalso
      have : (add_branding env bframe fs vp lp tg outb).completed = true := by
        simp [add_branding, hp]
      rw [hc] at this
      exact Bool.false_ne_true this
    · rw [Bool.not_eq_true] at hp
      constructor
      · simp [add_branding, hp, setFile]
      · exact brandLoop_written_front (bframe lp tg) env.procRaises
          (env.frames vp) 0

/-- Witness for the C7 theorem at the concrete interrupted environment. -/
theorem failed_compositing_leaves_unfinalized_file_witness :
    (add_subtitles_to_video envFrames drawNat fsDemo "v.mp4" [] "out.mp4").completed
      = false ∧
    (add_subtitles_to_video envFrames drawNat fsDemo "v.mp4" [] "out.mp4").writerCreated
      = true ∧
    (add_subtitles_to_video envFrames drawNat fsDemo "v.mp4" [] "out.mp4").fsOut
      "out.mp4" = some ⟨(subsLoop drawNat [] (envFrames.fps "v.mp4")
        envFrames.procRaises ((envFrames.frames "v.mp4").drop 10) 0).1, false⟩ ∧
    frontOf (subsLoop drawNat [] (envFrames.fps "v.mp4") envFrames.procRaises
        ((envFrames.frames "v.mp4").drop 10) 0).1
      (subsAll drawNat [] (envFrames.fps "v.mp4")
        ((envFrames.frames "v.mp4").drop 10) 0) ∧
    (add_branding envFrames bframeNat fsDemo "v.mp4" none none
      (some "b.mp4")).completed = false ∧
    (add_branding envFrames bframeNat fsDemo "v.mp4" none none
      (some "b.mp4")).fsOut "b.mp4" = some ⟨(brandLoop (bframeNat none none)
        envFrames.procRaises (envFrames.frames "v.mp4") 0).1, false⟩ ∧
    frontOf (brandLoop (bframeNat none none) envFrames.procRaises
        (envFrames.frames "v.mp4") 0).1
      (brandAll (bframeNat none none) (envFrames.frames "v.mp4")) := by
  have h := failed_compositing_leaves_unfinalized_file envFrames drawNat
    bframeNat fsDemo "v.mp4" [] "out.mp4" none none (some "b.mp4")
  have hcs : (add_subtitles_to_video envFrames drawNat fsDemo "v.mp4" []
      "out.mp4").completed = false := by decide
  have hws : (add_subtitles_to_video envFrames drawNat fsDemo "v.mp4" []
      "out.mp4").writerCreated = true := by decide
  have hcb : (add_branding envFrames bframeNat fsDemo "v.mp4" none none
      (some "b.mp4")).completed = false := by decide
  exact ⟨hcs, hws, (h.1 hcs hws).1, (h.1 hcs hws).2, hcb, (h.2 hcb).1,
    (h.2 hcb).2⟩

/-- C7 counterexample: the intended output path out.mp4 held nothing before
the run; after the interrupted subtitle run it holds neither nothing nor
the prior artifact but a partial, unfinalized one-frame file. -/
theorem subtitles_failure_leaves_incomplete_at_output :
    fsDemo "out.mp4" = none ∧
    (add_subtitles_to_video envFrames drawNat fsDemo "v.mp4" [] "out.mp4").completed
      = false ∧
    (add_subtitles_to_video envFrames drawNat fsDemo "v.mp4" [] "out.mp4").fsOut
      "out.mp4" = some ⟨[10], false⟩ ∧
    (add_subtitles_to_video envFrames drawNat fsDemo "v.mp4" [] "out.mp4").fsOut
      "out.mp4" ≠ none ∧
    (add_subtitles_to_video envFrames drawNat fsDemo "v.mp4" [] "out.mp4").fsOut
      "out.mp4" ≠ fsDemo "out.mp4" := by
  refine ⟨by decide, by decide, by decide, by decide, by decide⟩

/-- C9 (amended): the extract operation signals its outcome through a
boolean return value, True exactly when the source opened, decoded a first
frame and the subclip step did not raise; the output location is an input
argument, not a returned value, and failures are caught rather than
propagated as typed errors. -/
theorem extract_signals_with_bool (env : VideoEnv) (vin out : String)
    (s e : ℚ) :
    (process_video_file env vin out s e).ok =
      (env.opens vin && env.readsFrame vin &&
        !(env.subclipRaises vin s e out)) := by
  cases h1 : env.opens vin with
  | false => simp [process_video_file, h1]
  | true =>
    cases h2 : env.readsFrame vin with
    | false => simp [process_video_file, h1, h2]
    | true =>
      cases h3 : env.subclipRaises vin s e out with
      | false => simp [process_video_file, h1, h2, h3]
      | true => simp [process_video_file, h1, h2, h3]

/-- C9 counterexample: two successful extract calls that differ only in
their output location return the same value True, so the success value
carries no path (it is not the extracted segment location); a failing call
returns False instead of raising a typed error. -/
theorem extract_success_value_is_not_a_path :
    (process_video_file envReady "in.mp4" "a.mp4" 0 2).ok = true ∧
    (process_video_file envReady "in.mp4" "b.mp4" 0 2).ok = true ∧
    (process_video_file envReady "in.mp4" "a.mp4" 0 2).ok =
      (process_video_file envReady "in.mp4" "b.mp4" 0 2).ok ∧
    (process_video_file envNoOpen "in.mp4" "a.mp4" 0 2).ok = false := by
  refine ⟨by decide, by decide, by decide, by decide⟩

/-- C10: branding called with output_path omitted (None) writes to the
input path itself: the writer target is the input path, the returned path
is the input path (on success and on the caught-exception path alike), and
the input path ends up holding exactly the writer output. -/
theorem branding_default_output_aliases_input {F : Type}
    (env : CompositeEnv F) (bframe : Option String → Option String → F → F)
    (fs : FileSys F) (vp : String) (lp tg : Option String) :
    (add_branding env bframe fs vp lp tg none).writerTarget = vp ∧
    (add_branding env bframe fs vp lp tg none).retPath = vp ∧
    (add_branding env bframe fs vp lp tg none).fsOut vp =
      some ⟨(brandLoop (bframe lp tg) env.procRaises (env.frames vp) 0).1,
        (brandLoop (bframe lp tg) env.procRaises (env.frames vp) 0).2⟩ := by
  by_cases hp : (brandLoop (bframe lp tg) env.procRaises (env.frames vp) 0).2
      = true
  · refine ⟨?_, ?_, ?_⟩ <;> simp [add_branding, hp, setFile]
  · rw [Bool.not_eq_true] at hp
    refine ⟨?_, ?_, ?_⟩ <;> simp [add_branding, hp, setFile]

/-- Pixel characterization of one numpy region assignment. -/
theorem assignRegion_px (img : Img) (y0 x0 hh ww : Nat)
    (newPx : Nat → Nat → Nat → ℚ) (chSel : Nat → Bool) (y x c : Nat) :
    (assignRegion img y0 x0 hh ww newPx chSel).px y x c =
      if y0 ≤ y ∧ y < y0 + hh ∧ x0 ≤ x ∧ x < x0 + ww ∧ chSel c = true then
        newPx y x c
      else img.px y x c := rfl

/-- Pixel characterization of one per-channel blend step. -/
theorem blendChannel_px (lg : Img) (c0 : Nat) (img : Img) (y x c : Nat) :
    (blendChannel lg c0 img).px y x c =
      if 10 ≤ y ∧ y < 10 + lg.h ∧ 10 ≤ x ∧ x < 10 + lg.w ∧ (c == c0) = true then
        lg.px (y - 10) (x - 10) 3 / 255 * lg.px (y - 10) (x - 10) c +
          (1 - lg.px (y - 10) (x - 10) 3 / 255) * img.px y x c
      else img.px y x c := rfl

/-- With no tagline, the branding loop body is exactly the logo step. -/
theorem brandFrameImg_none (tagDraw : String → Img → Img)
    (logoR : Option Img) (frame : Img) :
    brandFrameImg tagDraw logoR none frame = applyLogo logoR frame := rfl

/-- Inside the logo region, a four-channel logo is alpha-blended onto each
of the three colour channels. -/
theorem applyLogo_blend_px (lg frame : Img) (y x c : Nat) (hch : lg.ch = 4)
    (hy1 : 10 ≤ y) (hy2 : y < 10 + lg.h) (hx1 : 10 ≤ x)
    (hx2 : x < 10 + lg.w) (hc : c < 3) :
    (applyLogo (some lg) frame).px y x c =
      lg.px (y - 10) (x - 10) 3 / 255 * lg.px (y - 10) (x - 10) c +
        (1 - lg.px (y - 10) (x - 10) 3 / 255) * frame.px y x c := by
  have e : applyLogo (some lg) frame =
      blendChannel lg 2 (blendChannel lg 1 (blendChannel lg 0 frame)) := by
    simp only [applyLogo, if_pos hch]
    rfl
  rw [e]
  interval_cases c
  · rw [blendChannel_px, if_neg fun hcond => absurd hcond.2.2.2.2 (by decide),
      blendChannel_px, if_neg fun hcond => absurd hcond.2.2.2.2 (by decide),
      blendChannel_px, if_pos ⟨hy1, hy2, hx1, hx2, by decide⟩]
  · rw [blendChannel_px, if_neg fun hcond => absurd hcond.2.2.2.2 (by decide),
      blendChannel_px, if_pos ⟨hy1, hy2, hx1, hx2, by decide⟩,
      blendChannel_px, if_neg fun hcond => absurd hcond.2.2.2.2 (by decide)]
  · rw [blendChannel_px, if_pos ⟨hy1, hy2, hx1, hx2, by decide⟩,
      blendChannel_px, if_neg fun hcond => absurd hcond.2.2.2.2 (by decide),
      blendChannel_px, if_neg fun hcond => absurd hcond.2.2.2.2 (by decide)]

/-- Inside the logo region, a logo without a fourth channel is copied
opaquely. -/
theorem applyLogo_blit_px (lg frame : Img) (y x c : Nat) (hch : lg.ch ≠ 4)
    (hy1 : 10 ≤ y) (hy2 : y < 10 + lg.h) (hx1 : 10 ≤ x)
    (hx2 : x < 10 + lg.w) :
    (applyLogo (some lg) frame).px y x c = lg.px (y - 10) (x - 10) c := by
  have e : applyLogo (some lg) frame =
      assignRegion frame 10 10 lg.h lg.w
        (fun y x c => lg.px (y - 10) (x - 10) c) (fun _ => true) := by
    simp only [applyLogo, if_neg hch]
  rw [e, assignRegion_px, if_pos ⟨hy1, hy2, hx1, hx2, rfl⟩]

/-- Outside the logo region every pixel of the frame is untouched. -/
theorem applyLogo_out_px (lg frame : Img) (y x c : Nat)
    (hreg : ¬(10 ≤ y ∧ y < 10 + lg.h ∧ 10 ≤ x ∧ x < 10 + lg.w)) :
    (applyLogo (some lg) frame).px y x c = frame.px y x c := by
  by_cases hch : lg.ch = 4
  · have e : applyLogo (some lg) frame =
        blendChannel lg 2 (blendChannel lg 1 (blendChannel lg 0 frame)) := by
      simp only [applyLogo, if_pos hch]
      rfl
    rw [e, blendChannel_px,
      if_neg fun hcond => hreg ⟨hcond.1, hcond.2.1, hcond.2.2.1, hcond.2.2.2.1⟩,
      blendChannel_px,
      if_neg fun hcond => hreg ⟨hcond.1, hcond.2.1, hcond.2.2.1, hcond.2.2.2.1⟩,
      blendChannel_px,
      if_neg fun hcond => hreg ⟨hcond.1, hcond.2.1, hcond.2.2.1, hcond.2.2.2.1⟩]
  · have e : applyLogo (some lg) frame =
        assignRegion frame 10 10 lg.h lg.w
          (fun y x c => lg.px (y - 10) (x - 10) c) (fun _ => true) := by
      simp only [applyLogo, if_neg hch]
    rw [e, assignRegion_px,
      if_neg fun hcond => hreg ⟨hcond.1, hcond.2.1, hcond.2.2.1, hcond.2.2.2.1⟩]

/-- C8: the branding compositor resizes the logo to the fixed 100 by 100
footprint and places it at the fixed offset of 10 pixels in x and y: inside
the region, each colour channel is alpha-blended per pixel when the logo
carries a fourth (transparency) channel and copied opaquely otherwise;
every pixel outside the region is untouched.  The frame is assumed at
least 110 pixels in each dimension, since a smaller frame makes the numpy
region assignment of the source raise on shape mismatch (the spec calls
that case undefined behaviour). -/
theorem branding_logo_resize_place_blend (sample : Nat → Nat → Nat → ℚ)
    (logo frame : Img) (tagDraw : String → Img → Img)
    (hfh : 110 ≤ frame.h) (hfw : 110 ≤ frame.w) :
    (cvResize sample logo 100 100).h = 100 ∧
    (cvResize sample logo 100 100).w = 100 ∧
    (∀ y x c, 10 ≤ y → y < 110 → 10 ≤ x → x < 110 → c < 3 →
      (brandFrameImg tagDraw (some (cvResize sample logo 100 100)) none
          frame).px y x c =
        (if (cvResize sample logo 100 100).ch = 4 then
          (cvResize sample logo 100 100).px (y - 10) (x - 10) 3 / 255 *
              (cvResize sample logo 100 100).px (y - 10) (x - 10) c +
            (1 - (cvResize sample logo 100 100).px (y - 10) (x - 10) 3 / 255) *
              frame.px y x c
        else (cvResize sample logo 100 100).px (y - 10) (x - 10) c)) ∧
    (∀ y x c, y < 10 ∨ 110 ≤ y ∨ x < 10 ∨ 110 ≤ x →
      (brandFrameImg tagDraw (some (cvResize sample logo 100 100)) none
          frame).px y x c = frame.px y x c) := by
  refine ⟨rfl, rfl, ?_, ?_⟩
  · intro y x c hy1 hy2 hx1 hx2 hc
    have hy2h : y < 10 + (cvResize sample logo 100 100).h := by
      have : (cvResize sample logo 100 100).h = 100 := rfl
      omega
    have hx2w : x < 10 + (cvResize sample logo 100 100).w := by
      have : (cvResize sample logo 100 100).w = 100 := rfl
      omega
    rw [brandFrameImg_none]
    by_cases hch : (cvResize sample logo 100 100).ch = 4
    · rw [if_pos hch]
      exact applyLogo_blend_px (cvResize sample logo 100 100) frame y x c hch
        hy1 hy2h hx1 hx2w hc
    · rw [if_neg hch]
      exact applyLogo_blit_px (cvResize sample logo 100 100) frame y x c hch
        hy1 hy2h hx1 hx2w
  · intro y x c hout
    rw [brandFrameImg_none]
    apply applyLogo_out_px
    intro hcond
    have hh100 : (cvResize sample logo 100 100).h = 100 := rfl
    have hw100 : (cvResize sample logo 100 100).w = 100 := rfl
    rw [hh100] at hcond
    rw [hw100] at hcond
    rcases hout with h | h | h | h <;> omega

/-- Witness for the C8 theorem: a concrete four-channel logo of constant
resampled value 64 over a constant frame of value 10; the blended pixel at
row 15, column 20 takes the alpha-blend value and a pixel outside the logo
region is untouched. -/
theorem branding_logo_resize_place_blend_witness :
    110 ≤ demoFrame.h ∧ 110 ≤ demoFrame.w ∧
    (cvResize demoSample demoLogo4 100 100).h = 100 ∧
    (cvResize demoSample demoLogo4 100 100).w = 100 ∧
    (brandFrameImg demoTagDraw (some (cvResize demoSample demoLogo4 100 100))
      none demoFrame).px 15 20 1 = 2002 / 85 ∧
    (brandFrameImg demoTagDraw (some (cvResize demoSample demoLogo4 100 100))
      none demoFrame).px 5 20 0 = 10 := by
  have h := branding_logo_resize_place_blend demoSample demoLogo4 demoFrame
    demoTagDraw (by decide) (by decide)
  refine ⟨by decide, by decide, h.1, h.2.1, ?_, ?_⟩
  · have hin := h.2.2.1 15 20 1 (by norm_num) (by norm_num) (by norm_num)
      (by norm_num) (by norm_num)
    rw [hin]
    norm_num [cvResize, demoSample, demoLogo4, demoFrame]
  · have hout := h.2.2.2 5 20 0 (Or.inl (by norm_num))
    rw [hout]
    norm_num [demoFrame]

end TeaserGen
